import Mathlib

/-!
Verification development for the kube-arangodb credential-reconciliation core.

The Go sources are shallowly embedded:
* Kubernetes secrets become an association list from names to `Secret`
  records; the store also carries a log of the operations the embedded code
  performed (so frame properties are provable) and a list of injected
  `Fault`s modelling concurrent interference and store failures (so the
  race-tolerance and error paths of the code are reachable).
* Randomness (`rand.Read`, CA key generation) is externalised: the bytes the
  generator would produce are explicit inputs.
* JWTs are symbolic: a signed token records the signing key and the claim
  set; parsing with verification succeeds exactly on the matching key.
-/

/-- Claim set carried by the exporter JWT, mirroring the Go
`map[string]interface{}` with fields iss, server_id and allowed_paths;
`equality.Semantic.DeepEqual` on these maps becomes structural equality. -/
structure MapClaims where
  iss : String
  server_id : String
  allowed_paths : List String
deriving DecidableEq, Repr

/-- Value stored under one data key of a secret.  Go stores raw bytes; we
distinguish the three shapes the embedded code produces: plain token
strings, symbolic signed JWT blobs, and opaque byte material. -/
inductive SVal where
  | str : String → SVal
  | jwtTok : SVal → MapClaims → SVal
  | bytes : List Nat → SVal
deriving DecidableEq, Repr

/-- A stored secret: data fields plus the owner reference attached at
creation. -/
structure Secret where
  data : List (String × SVal)
  owner : Option String
deriving DecidableEq, Repr

/-- Operations the embedded code can perform against the secret store. -/
inductive StoreOp where
  | get : String → StoreOp
  | create : String → Secret → StoreOp
  | delete : String → StoreOp
deriving DecidableEq, Repr

/-- Interference injected at one store operation: `ok` is quiescence,
`fail` makes the operation return a store error, `raceCreate` has a
concurrent actor create the named secret just before our operation runs. -/
inductive Fault where
  | ok : Fault
  | fail : Fault
  | raceCreate : String → Secret → Fault
deriving DecidableEq, Repr

/-- The secret store: current secrets, pending injected faults (consumed one
per operation; exhausted list means no interference), and the log of
operations performed by the embedded code. -/
structure Store where
  secrets : List (String × Secret)
  faults : List Fault
  log : List StoreOp
deriving DecidableEq, Repr

/-- Association-list lookup by secret or field name. -/
def findVal {α : Type} : List (String × α) → String → Option α
  | [], _ => none
  | (k, v) :: rest, name => if k = name then some v else findVal rest name

/-- Association-list removal of every binding of a name. -/
def removeVal {α : Type} : List (String × α) → String → List (String × α)
  | [], _ => []
  | (k, v) :: rest, name =>
      if k = name then removeVal rest name else (k, v) :: removeVal rest name

/-- Result of a store get, classified the way `k8sutil.IsNotFound` splits
the Go error. -/
inductive GetRes where
  | found : Secret → GetRes
  | notFound : GetRes
  | err : GetRes
deriving DecidableEq, Repr

/-- Result of a store create, classified the way `k8sutil.IsAlreadyExists`
splits the Go error. -/
inductive CreateRes where
  | ok : CreateRes
  | alreadyExists : CreateRes
  | err : CreateRes
deriving DecidableEq, Repr

/-- Result of a store delete, classified the way `apierrors.IsNotFound`
splits the Go error. -/
inductive DeleteRes where
  | ok : DeleteRes
  | notFound : DeleteRes
  | err : DeleteRes
deriving DecidableEq, Repr

/-- Pop the next injected fault; an empty fault list behaves as `Fault.ok`. -/
def Store.popFault (st : Store) : Store × Fault :=
  match st.faults with
  | [] => (st, Fault.ok)
  | f :: fs => ({ st with faults := fs }, f)

/-- Apply the concurrent-actor part of a fault to the secret map: a racing
create inserts the named secret when absent. -/
def raceApply (secs : List (String × Secret)) : Fault → List (String × Secret)
  | Fault.raceCreate n d => if (findVal secs n).isSome then secs else secs ++ [(n, d)]
  | _ => secs

/-- Store get with fault injection and logging. -/
def Store.getOp (st : Store) (name : String) : Store × GetRes :=
  let p := st.popFault
  let secs := raceApply p.1.secrets p.2
  let st2 : Store := { p.1 with secrets := secs, log := p.1.log ++ [StoreOp.get name] }
  if p.2 = Fault.fail then (st2, GetRes.err)
  else
    match findVal secs name with
    | some d => (st2, GetRes.found d)
    | none => (st2, GetRes.notFound)

/-- Store create with atomic already-exists semantics, fault injection and
logging. -/
def Store.createOp (st : Store) (name : String) (sec : Secret) : Store × CreateRes :=
  let p := st.popFault
  let secs := raceApply p.1.secrets p.2
  if p.2 = Fault.fail then
    ({ p.1 with secrets := secs, log := p.1.log ++ [StoreOp.create name sec] }, CreateRes.err)
  else
    match findVal secs name with
    | some _ =>
        ({ p.1 with secrets := secs, log := p.1.log ++ [StoreOp.create name sec] },
         CreateRes.alreadyExists)
    | none =>
        ({ p.1 with secrets := secs ++ [(name, sec)], log := p.1.log ++ [StoreOp.create name sec] },
         CreateRes.ok)

/-- Store delete with tolerated not-found, fault injection and logging. -/
def Store.deleteOp (st : Store) (name : String) : Store × DeleteRes :=
  let p := st.popFault
  let secs := raceApply p.1.secrets p.2
  if p.2 = Fault.fail then
    ({ p.1 with secrets := secs, log := p.1.log ++ [StoreOp.delete name] }, DeleteRes.err)
  else
    match findVal secs name with
    | some _ =>
        ({ p.1 with secrets := removeVal secs name, log := p.1.log ++ [StoreOp.delete name] },
         DeleteRes.ok)
    | none =>
        ({ p.1 with secrets := secs, log := p.1.log ++ [StoreOp.delete name] },
         DeleteRes.notFound)

/-- Errors surfaced by the embedded code, mirroring the Go taxonomy:
store failures, not-found surfaced as error, already-exists surfaced as
error, a missing expected field, `errors.Errorf` validation errors,
`errors.Wrapf` context wrapping, and the explicit authentication-required
policy error of the client factory. -/
inductive Err where
  | storeFail : String → String → Err
  | notFound : String → Err
  | alreadyExists : String → Err
  | missingField : String → String → Err
  | validation : String → Err
  | wrap : String → Err → Err
  | authRequired : Err
deriving DecidableEq, Repr

/-- True exactly on errors rooted in an unexpected store failure
(`StoreError` in the spec's taxonomy), looking through wrapping. -/
def Err.isStoreFailure : Err → Bool
  | Err.storeFail _ _ => true
  | Err.wrap _ e => e.isStoreFailure
  | _ => false

/-- Fixed data key of token secrets (`constants.SecretKeyToken`). -/
def SecretKeyToken : String := "token"

/-- Fixed data key of encryption-key material (`constants.SecretEncryptionKey`). -/
def SecretEncryptionKey : String := "key"

/-- Modelled from the spec: `k8sutil.ArangoExporterInternalEndpoint` is a
fixed path constant naming the exporter's internal metrics endpoint; its
concrete value is outside the excerpted sources. -/
def ArangoExporterInternalEndpoint : String := "/_admin/metrics"

/-- Hex digit for a nibble, lowercase as in Go `encoding/hex`. -/
def hexDigit (n : Nat) : Char :=
  if n < 10 then Char.ofNat (48 + n) else Char.ofNat (87 + n)

/-- Hex encoding of one byte, two lowercase digits. -/
def hexEncodeByte (b : Nat) : List Char :=
  [hexDigit (b / 16 % 16), hexDigit (b % 16)]

/-- Go `hex.EncodeToString` on a byte sequence. -/
def hexEncode (bs : List Nat) : String :=
  String.mk (bs.map hexEncodeByte).flatten

/-- Modelled from the spec: `k8sutil.CreateTokenSecret` stores the token
string under the single well-known token field, attaching the owner
reference. -/
def createTokenSecret (st : Store) (secretName token : String) (owner : String) :
    Store × CreateRes :=
  st.createOp secretName ⟨[(SecretKeyToken, SVal.str token)], some owner⟩

/-- Modelled from the spec: `k8sutil.GetTokenSecret` reads the named secret
and extracts its token field, failing when the secret or the field is
missing or the store read fails. -/
def getTokenSecret (st : Store) (secretName : String) : Store × Except Err SVal :=
  match st.getOp secretName with
  | (st1, GetRes.found sec) =>
      match findVal sec.data SecretKeyToken with
      | some v => (st1, Except.ok v)
      | none => (st1, Except.error (Err.missingField secretName SecretKeyToken))
  | (st1, GetRes.notFound) => (st1, Except.error (Err.notFound secretName))
  | (st1, GetRes.err) => (st1, Except.error (Err.storeFail "get" secretName))

/-- Symbolic `jg.Parse` with signature verification: succeeds exactly when
the blob is a JWT signed with the supplied key, yielding its claims. -/
def jgParse (tok : SVal) (key : SVal) : Option MapClaims :=
  match tok with
  | SVal.jwtTok k c => if k = key then some c else none
  | _ => none

/-- Modelled from the spec: `k8sutil.CreateJWTFromSecret` reads the signing
key from the named signing secret, signs the claim set with it, and creates
the token secret carrying the resulting JWT under the token field. -/
def createJWTFromSecret (st : Store) (tokenSecretName secretSecretName : String)
    (claims : MapClaims) (owner : String) : Store × Except Err CreateRes :=
  match getTokenSecret st secretSecretName with
  | (st1, Except.error e) => (st1, Except.error e)
  | (st1, Except.ok key) =>
      match st1.createOp tokenSecretName
          ⟨[(SecretKeyToken, SVal.jwtTok key claims)], some owner⟩ with
      | (st2, CreateRes.err) =>
          (st2, Except.error (Err.storeFail "create" tokenSecretName))
      | (st2, r) => (st2, Except.ok r)

/-- Modelled from the spec: `createTLSCACertificate` stores freshly generated
self-signed CA material (a certificate/key field pair) under the CA secret
name with the owner reference; the PEM generation itself is externalised as
the `caCert`/`caKey` inputs. -/
def createTLSCACertificate (st : Store) (caSecretName : String)
    (caCert caKey : List Nat) (owner : String) : Store × CreateRes :=
  st.createOp caSecretName
    ⟨[("ca.crt", SVal.bytes caCert), ("ca.key", SVal.bytes caKey)], some owner⟩

/-- Modelled from the spec: `createClientAuthCACertificate` is the second,
independent instance of the CA-bootstrap flow for the client-authentication
CA. -/
def createClientAuthCACertificate (st : Store) (clientCASecretName : String)
    (caCert caKey : List Nat) (owner : String) : Store × CreateRes :=
  st.createOp clientCASecretName
    ⟨[("ca.crt", SVal.bytes caCert), ("ca.key", SVal.bytes caKey)], some owner⟩

/-- Modelled from the spec: `k8sutil.AppendKeyfileToKeyfolder` packages the
discovered key bytes into the keyfolder secret with the owner reference. -/
def appendKeyfileToKeyfolder (st : Store) (owner : String) (secretName : String)
    (d : SVal) : Store × CreateRes :=
  st.createOp secretName ⟨[(SecretEncryptionKey, d)], some owner⟩

/-- Modelled from the spec: `pod.GetKeyfolderSecretName` derives the
keyfolder secret name from the deployment name. -/
def GetKeyfolderSecretName (deploymentName : String) : String :=
  deploymentName ++ "-encryption-folder"

/-- Embedding of `Resources.ensureTokenSecret`: get by name; when not found,
hex-encode the 32 random bytes (externalised as `tokenData`) and create the
token secret with the owner reference, treating already-exists as success;
other get or create failures are fatal. -/
def ensureTokenSecret (st : Store) (owner : String) (tokenData : List Nat)
    (secretName : String) : Store × Option Err :=
  match st.getOp secretName with
  | (st1, GetRes.notFound) =>
      let token := hexEncode tokenData
      match createTokenSecret st1 secretName token owner with
      | (st2, CreateRes.alreadyExists) => (st2, none)
      | (st2, CreateRes.ok) => (st2, none)
      | (st2, CreateRes.err) => (st2, some (Err.storeFail "create" secretName))
  | (st1, GetRes.found _) => (st1, none)
  | (st1, GetRes.err) => (st1, some (Err.storeFail "get" secretName))

/-- Embedding of `Resources.ensureEncryptionKeyfolderSecret`: read the source
keyfile secret (any read failure, not-found included, is wrapped as "Unable
to find original secret"); empty data or a missing encryption-key field is
the validation error "Missing key in secret"; otherwise package the bytes
into the keyfolder secret, wrapping create failures. -/
def ensureEncryptionKeyfolderSecret (st : Store) (owner : String)
    (keyfileSecretName secretName : String) : Store × Option Err :=
  match st.getOp keyfileSecretName with
  | (st1, GetRes.notFound) =>
      (st1, some (Err.wrap "Unable to find original secret" (Err.notFound keyfileSecretName)))
  | (st1, GetRes.err) =>
      (st1, some (Err.wrap "Unable to find original secret" (Err.storeFail "get" keyfileSecretName)))
  | (st1, GetRes.found keyfile) =>
      if keyfile.data.length = 0 then
        (st1, some (Err.validation "Missing key in secret"))
      else
        match findVal keyfile.data SecretEncryptionKey with
        | none => (st1, some (Err.validation "Missing key in secret"))
        | some d =>
            match appendKeyfileToKeyfolder st1 owner secretName d with
            | (st2, CreateRes.ok) => (st2, none)
            | (st2, CreateRes.alreadyExists) =>
                (st2, some (Err.wrap "Unable to create keyfolder secret" (Err.alreadyExists secretName)))
            | (st2, CreateRes.err) =>
                (st2, some (Err.wrap "Unable to create keyfolder secret" (Err.storeFail "create" secretName)))

/-- Desired claim set of the exporter monitoring token
(`exporterTokenClaims` in the source). -/
def exporterTokenClaims : MapClaims :=
  { iss := "arangodb"
    server_id := "exporter"
    allowed_paths := ["/_admin/statistics", "/_admin/statistics-description",
                      ArangoExporterInternalEndpoint] }

/-- Dynamic (reflect) type of a Go claims container, as it matters to
`reflect.DeepEqual`: the claims decoded by `jg.Parse` have type
`jwt-go.MapClaims`; the package-level desired claim set is a plain
`map[string]interface{}`. -/
inductive GoReflectType where
  | jgMapClaims
  | mapStringInterface
deriving DecidableEq, Repr

/-- A claims value as the Go program holds it at the comparison site: its
structural content together with the dynamic reflect type of the
container. -/
structure GoClaims where
  reflectType : GoReflectType
  claims : MapClaims
deriving DecidableEq, Repr

/-- Embedding of apimachinery `equality.Semantic.DeepEqual` on claim maps:
with no equality func registered for these types it falls back to
`reflect.DeepEqual`, which returns false outright when the two dynamic types
differ and only then compares contents.  At the one call site in the source
the operands are a `jg.MapClaims` and a `map[string]interface{}`, so the
comparison is false for every decoded token (independently, the decoded
`allowed_paths` is `[]interface{}` against the desired `[]string`, a second
type mismatch the container-level one already subsumes). -/
def semanticDeepEqual (a b : GoClaims) : Bool :=
  if a.reflectType = b.reflectType then decide (a.claims = b.claims) else false

/-- The desired exporter claim set as the Go value it is compared as: a
`map[string]interface{}` literal. -/
def exporterTokenClaimsGo : GoClaims :=
  { reflectType := GoReflectType.mapStringInterface, claims := exporterTokenClaims }

/-- Embedding of `Resources.ensureExporterTokenSecretCreateRequired`: decides
(recreate, exists, error) for the exporter token — not found means create;
a missing token field means recreate-after-delete; an unreadable signing
secret is fatal; a failed parse/verification means recreate; a parsed token
is compared to the desired set with `semanticDeepEqual`, whose reflect-type
mismatch makes the comparison false — and so the answer "recreate" — for
every decoded token, leaving the claims-match no-action branch
unreachable. -/
def ensureExporterTokenSecretCreateRequired (st : Store)
    (tokenSecretName secretSecretName : String) :
    Store × (Bool × Bool × Option Err) :=
  match st.getOp tokenSecretName with
  | (st1, GetRes.notFound) => (st1, (true, false, none))
  | (st1, GetRes.err) =>
      (st1, (false, false, some (Err.storeFail "get" tokenSecretName)))
  | (st1, GetRes.found sec) =>
      match findVal sec.data SecretKeyToken with
      | none => (st1, (true, true, none))
      | some data =>
          match getTokenSecret st1 secretSecretName with
          | (st2, Except.error e) => (st2, (false, true, some e))
          | (st2, Except.ok key) =>
              match jgParse data key with
              | none => (st2, (true, true, none))
              | some tokenClaims =>
                  if semanticDeepEqual ⟨GoReflectType.jgMapClaims, tokenClaims⟩
                      exporterTokenClaimsGo
                  then (st2, (false, true, none))
                  else (st2, (true, true, none))

/-- Embedding of `Resources.ensureExporterTokenSecret`: when recreation is
required, delete the old secret first when it exists (tolerating not-found),
then create the claims-bound JWT secret, treating already-exists as
success. -/
def ensureExporterTokenSecret (st : Store) (owner : String)
    (tokenSecretName secretSecretName : String) : Store × Option Err :=
  match ensureExporterTokenSecretCreateRequired st tokenSecretName secretSecretName with
  | (st1, (_, _, some e)) => (st1, some e)
  | (st1, (recreate, existed, none)) =>
      if recreate then
        match (if existed then st1.deleteOp tokenSecretName else (st1, DeleteRes.ok)) with
        | (st2, DeleteRes.err) => (st2, some (Err.storeFail "delete" tokenSecretName))
        | (st2, _) =>
            match createJWTFromSecret st2 tokenSecretName secretSecretName
                exporterTokenClaims owner with
            | (st3, Except.ok CreateRes.alreadyExists) => (st3, none)
            | (st3, Except.ok _) => (st3, none)
            | (st3, Except.error e) => (st3, some e)
      else (st1, none)

/-- Embedding of `Resources.ensureTLSCACertificateSecret`: get the CA secret
by name; when not found, generate and store a self-signed CA, treating
already-exists as success; other failures are fatal. -/
def ensureTLSCACertificateSecret (st : Store) (owner : String)
    (caCert caKey : List Nat) (caSecretName : String) : Store × Option Err :=
  match st.getOp caSecretName with
  | (st1, GetRes.notFound) =>
      match createTLSCACertificate st1 caSecretName caCert caKey owner with
      | (st2, CreateRes.alreadyExists) => (st2, none)
      | (st2, CreateRes.ok) => (st2, none)
      | (st2, CreateRes.err) => (st2, some (Err.storeFail "create" caSecretName))
  | (st1, GetRes.found _) => (st1, none)
  | (st1, GetRes.err) => (st1, some (Err.storeFail "get" caSecretName))

/-- Embedding of `Resources.ensureClientAuthCACertificateSecret`: the same
flow as the server TLS CA, keyed by the client-auth CA secret name. -/
def ensureClientAuthCACertificateSecret (st : Store) (owner : String)
    (caCert caKey : List Nat) (clientCASecretName : String) : Store × Option Err :=
  match st.getOp clientCASecretName with
  | (st1, GetRes.notFound) =>
      match createClientAuthCACertificate st1 clientCASecretName caCert caKey owner with
      | (st2, CreateRes.alreadyExists) => (st2, none)
      | (st2, CreateRes.ok) => (st2, none)
      | (st2, CreateRes.err) => (st2, some (Err.storeFail "create" clientCASecretName))
  | (st1, GetRes.found _) => (st1, none)
  | (st1, GetRes.err) => (st1, some (Err.storeFail "get" clientCASecretName))

/-- Boolean toggles and secret names exposed by the desired deployment
specification (the `DeploymentSecurityProfile` of the spec together with
the named secret references `EnsureSecrets` consumes). -/
structure DeploymentSpec where
  authenticated : Bool
  metricsEnabled : Bool
  secure : Bool
  encrypted : Bool
  syncEnabled : Bool
  jwtSecretName : String
  metricsJWTTokenSecretName : String
  caSecretName : String
  encryptionKeySecretName : String
  syncJWTSecretName : String
  syncMonitoringTokenSecretName : String
  syncCASecretName : String
  syncClientCASecretName : String
deriving DecidableEq, Repr

/-- Externalised randomness consumed by one `EnsureSecrets` pass: the bytes
`rand.Read` and the CA generators would produce at each potential
create site. -/
structure Entropy where
  authTokenData : List Nat
  syncTokenData : List Nat
  syncMonTokenData : List Nat
  tlsCACert : List Nat
  tlsCAKey : List Nat
  syncCACert : List Nat
  syncCAKey : List Nat
  clientCACert : List Nat
  clientCAKey : List Nat
deriving DecidableEq, Repr

/-- Early-return sequencing of two ensure steps, mirroring the Go
`if err := ...; err != nil { return maskAny(err) }` pattern. -/
def seqE (r : Store × Option Err) (k : Store → Store × Option Err) :
    Store × Option Err :=
  match r with
  | (st, some e) => (st, some e)
  | (st, none) => k st

/-- Embedding of `Resources.EnsureSecrets`: the per-pass dispatch over the
applicable credential kinds in source order — auth token (and, with metrics,
the exporter token signed by it), server TLS CA, encryption keyfolder, and
the four sync credentials. -/
def EnsureSecrets (st : Store) (spec : DeploymentSpec)
    (deploymentName owner : String) (ent : Entropy) : Store × Option Err :=
  seqE (if spec.authenticated then
          seqE (ensureTokenSecret st owner ent.authTokenData spec.jwtSecretName)
            (fun st1 =>
              if spec.metricsEnabled then
                ensureExporterTokenSecret st1 owner spec.metricsJWTTokenSecretName
                  spec.jwtSecretName
              else (st1, none))
        else (st, none)) (fun st2 =>
  seqE (if spec.secure then
          ensureTLSCACertificateSecret st2 owner ent.tlsCACert ent.tlsCAKey spec.caSecretName
        else (st2, none)) (fun st3 =>
  seqE (if spec.encrypted then
          ensureEncryptionKeyfolderSecret st3 owner spec.encryptionKeySecretName
            (GetKeyfolderSecretName deploymentName)
        else (st3, none)) (fun st4 =>
  if spec.syncEnabled then
    seqE (ensureTokenSecret st4 owner ent.syncTokenData spec.syncJWTSecretName) (fun st5 =>
    seqE (ensureTokenSecret st5 owner ent.syncMonTokenData spec.syncMonitoringTokenSecretName)
      (fun st6 =>
    seqE (ensureTLSCACertificateSecret st6 owner ent.syncCACert ent.syncCAKey
          spec.syncCASecretName) (fun st7 =>
    ensureClientAuthCACertificateSecret st7 owner ent.clientCACert ent.clientCAKey
      spec.syncClientCASecretName)))
  else (st4, none))))

/-- Request-scoped policy markers carried by the Go `context.Context`:
presence of the skip-authentication and require-authentication keys. -/
structure ClientCtx where
  skipAuthentication : Bool
  requireAuthentication : Bool
deriving DecidableEq, Repr

/-- The fields of `nhttp.Transport` fixed by the four shared pools; times in
milliseconds. -/
structure Transport where
  dialTimeoutMs : Nat
  keepAliveMs : Nat
  maxIdleConns : Nat
  idleConnTimeoutMs : Nat
  tlsHandshakeTimeoutMs : Nat
  expectContinueTimeoutMs : Nat
  tlsInsecureSkipVerify : Bool
deriving DecidableEq, Repr

/-- The process-wide plaintext transport pool with normal timeouts. -/
def sharedHTTPTransport : Transport :=
  { dialTimeoutMs := 30000, keepAliveMs := 90000, maxIdleConns := 100,
    idleConnTimeoutMs := 90000, tlsHandshakeTimeoutMs := 10000,
    expectContinueTimeoutMs := 1000, tlsInsecureSkipVerify := false }

/-- The process-wide TLS transport pool with normal timeouts. -/
def sharedHTTPSTransport : Transport :=
  { dialTimeoutMs := 30000, keepAliveMs := 90000, maxIdleConns := 100,
    idleConnTimeoutMs := 90000, tlsHandshakeTimeoutMs := 10000,
    expectContinueTimeoutMs := 1000, tlsInsecureSkipVerify := true }

/-- The process-wide plaintext transport pool with short keep-alive/idle
timeouts. -/
def sharedHTTPTransportShortTimeout : Transport :=
  { dialTimeoutMs := 30000, keepAliveMs := 100, maxIdleConns := 100,
    idleConnTimeoutMs := 100, tlsHandshakeTimeoutMs := 10000,
    expectContinueTimeoutMs := 1000, tlsInsecureSkipVerify := false }

/-- The process-wide TLS transport pool with short keep-alive/idle
timeouts. -/
def sharedHTTPSTransportShortTimeout : Transport :=
  { dialTimeoutMs := 30000, keepAliveMs := 100, maxIdleConns := 100,
    idleConnTimeoutMs := 100, tlsHandshakeTimeoutMs := 10000,
    expectContinueTimeoutMs := 1000, tlsInsecureSkipVerify := true }

/-- The deployment API object as the client factory consumes it: identity
plus the desired spec. -/
structure ApiObject where
  name : String
  ns : String
  spec : DeploymentSpec
deriving DecidableEq, Repr

/-- A go-driver authentication value; `raw` carries the minted bearer
header. -/
structure JwtHeader where
  secret : SVal
  identity : String
deriving DecidableEq, Repr

/-- Authentication attached to a client. -/
inductive Authentication where
  | raw : JwtHeader → Authentication
deriving DecidableEq, Repr

/-- Modelled from the spec: `jwt.CreateArangodJwtAuthorizationHeader` mints a
bearer credential signed with the supplied secret, scoped to the given
identity. -/
def createArangodJwtAuthorizationHeader (s : SVal) (identity : String) : JwtHeader :=
  { secret := s, identity := identity }

/-- The go-driver `http.ConnectionConfig` fields the factory fixes. -/
structure ConnectionConfig where
  transport : Transport
  dontFollowRedirect : Bool
  endpoints : List String
deriving DecidableEq, Repr

/-- Modelled from the spec: `k8sutil.ArangoPort`, the fixed member port. -/
def ArangoPort : Nat := 8529

/-- Go `net.JoinHostPort` for a DNS host name. -/
def joinHostPort (host : String) (port : Nat) : String :=
  host ++ ":" ++ toString port

/-- Modelled from the spec: `k8sutil.CreatePodDNSName` computes a member's
DNS name from the naming convention. -/
def CreatePodDNSName (deploymentName role id ns : String) : String :=
  deploymentName ++ "-" ++ role ++ "-" ++ id ++ "." ++ deploymentName ++ "-int." ++ ns ++ ".svc"

/-- Embedding of `createArangodHTTPConfigForDNSNames`: pick scheme and one of
the four shared transport pools from the secure toggle (false when no API
object is supplied) and the short-timeout flag, then list the endpoints. -/
def createArangodHTTPConfigForDNSNames (apiObject : Option ApiObject)
    (dnsNames : List String) (shortTimeout : Bool) : ConnectionConfig :=
  let secure := match apiObject with
    | some obj => obj.spec.secure
    | none => false
  let scheme := if secure then "https" else "http"
  let transport :=
    if secure then
      if shortTimeout then sharedHTTPSTransportShortTimeout else sharedHTTPSTransport
    else
      if shortTimeout then sharedHTTPTransportShortTimeout else sharedHTTPTransport
  { transport := transport
    dontFollowRedirect := true
    endpoints := dnsNames.map (fun d => scheme ++ "://" ++ joinHostPort d ArangoPort) }

/-- Embedding of `createArangodClientAuthentication`: with an authenticated
API object, unless the skip marker is set, read the primary auth token and
mint a bearer header under the operator identity; with no API object or
authentication disabled, attach nothing unless the require marker is set,
which is a fatal policy error. -/
def createArangodClientAuthentication (ctx : ClientCtx) (apiObject : Option ApiObject)
    (st : Store) : Store × Except Err (Option Authentication) :=
  match apiObject with
  | some obj =>
      if obj.spec.authenticated then
        if ctx.skipAuthentication then (st, Except.ok none)
        else
          match getTokenSecret st obj.spec.jwtSecretName with
          | (st1, Except.error e) => (st1, Except.error e)
          | (st1, Except.ok s) =>
              (st1, Except.ok (some (Authentication.raw
                (createArangodJwtAuthorizationHeader s "kube-arangodb"))))
      else
        if ctx.requireAuthentication then (st, Except.error Err.authRequired)
        else (st, Except.ok none)
  | none =>
      if ctx.requireAuthentication then (st, Except.error Err.authRequired)
      else (st, Except.ok none)

/-- A built go-driver client: its connection configuration and the attached
authentication (connection construction itself is modelled as total). -/
structure Client where
  conn : ConnectionConfig
  auth : Option Authentication
deriving DecidableEq, Repr

/-- Embedding of `createArangodClientForDNSName`: build the connection config
for the single DNS name, then attach the authentication decision. -/
def createArangodClientForDNSName (ctx : ClientCtx) (apiObject : Option ApiObject)
    (st : Store) (dnsName : String) (shortTimeout : Bool) :
    Store × Except Err Client :=
  let connConfig := createArangodHTTPConfigForDNSNames apiObject [dnsName] shortTimeout
  match createArangodClientAuthentication ctx apiObject st with
  | (st1, Except.error e) => (st1, Except.error e)
  | (st1, Except.ok auth) => (st1, Except.ok { conn := connConfig, auth := auth })

/-- Embedding of `CreateArangodImageIDClient`: the bare-DNS bootstrap client,
built from the naming convention with no API object and normal timeouts. -/
def CreateArangodImageIDClient (ctx : ClientCtx) (deploymentName ns role id : String)
    (st : Store) : Store × Except Err Client :=
  let dnsName := CreatePodDNSName deploymentName role id ns
  createArangodClientForDNSName ctx none st dnsName false

/-- Backup states named by the excerpt (the closed set includes at least
these; others are outside the excerpted material). -/
inductive ArangoBackupState where
  | pending
  | inProgress
  | downloadError
deriving DecidableEq, Repr

/-- The persisted backup status record: state, transition time (seconds) and
message. -/
structure ArangoBackupStatus where
  state : ArangoBackupState
  time : Nat
  message : String
deriving DecidableEq, Repr

/-- Cool-down before a failed download is retried (`downloadDelay`,
one minute, in seconds). -/
def downloadDelay : Nat := 60

/-- Modelled from the spec: `updateStatusState` is a status mutation setting
the new state and message, refreshing the transition time only when the
state actually changes. -/
def updateStatusState (now : Nat) (state : ArangoBackupState) (msg : String)
    (status : ArangoBackupStatus) : ArangoBackupStatus :=
  { state := state
    time := if status.state = state then status.time else now
    message := msg }

/-- Modelled from the spec: `wrapUpdateStatus` applies the given mutations to
the backup's current status and returns the result with no error;
persistence is the caller's concern. -/
def wrapUpdateStatus (status : ArangoBackupStatus)
    (muts : List (ArangoBackupStatus → ArangoBackupStatus)) :
    ArangoBackupStatus × Option Err :=
  (muts.foldl (fun s m => m s) status, none)

/-- Embedding of `stateDownloadErrorHandler`: once the cool-down since the
recorded transition time has elapsed (strictly), go back to Pending with an
empty message; otherwise re-emit the unchanged status. -/
def stateDownloadErrorHandler (now : Nat) (status : ArangoBackupStatus) :
    ArangoBackupStatus × Option Err :=
  if status.time + downloadDelay < now then
    wrapUpdateStatus status [updateStatusState now ArangoBackupState.pending ""]
  else
    wrapUpdateStatus status []

/-- Without injected faults, a store get only logs itself and reports the
lookup result. -/
theorem getOp_nofault (st : Store) (name : String) (h : st.faults = []) :
    st.getOp name =
      ({ st with log := st.log ++ [StoreOp.get name] },
        match findVal st.secrets name with
        | some d => GetRes.found d
        | none => GetRes.notFound) := by
  simp only [Store.getOp, Store.popFault, h, raceApply]
  cases findVal st.secrets name <;> simp

/-- Without injected faults, a store create on an absent name appends the
secret and succeeds. -/
theorem createOp_nofault_absent (st : Store) (name : String) (sec : Secret)
    (h : st.faults = []) (habs : findVal st.secrets name = none) :
    st.createOp name sec =
      ({ st with secrets := st.secrets ++ [(name, sec)],
                 log := st.log ++ [StoreOp.create name sec] }, CreateRes.ok) := by
  simp [Store.createOp, Store.popFault, h, raceApply, habs]

/-- Without injected faults, a store create on a present name reports
already-exists and leaves the secrets untouched. -/
theorem createOp_nofault_present (st : Store) (name : String) (sec old : Secret)
    (h : st.faults = []) (hpres : findVal st.secrets name = some old) :
    st.createOp name sec =
      ({ st with log := st.log ++ [StoreOp.create name sec] }, CreateRes.alreadyExists) := by
  simp [Store.createOp, Store.popFault, h, raceApply, hpres]

/-- Without injected faults, a store delete on a present name removes it. -/
theorem deleteOp_nofault_present (st : Store) (name : String) (old : Secret)
    (h : st.faults = []) (hpres : findVal st.secrets name = some old) :
    st.deleteOp name =
      ({ st with secrets := removeVal st.secrets name,
                 log := st.log ++ [StoreOp.delete name] }, DeleteRes.ok) := by
  simp [Store.deleteOp, Store.popFault, h, raceApply, hpres]

/-- When the token secret is already present and the store is quiescent,
the ensure only performs the read and succeeds. -/
theorem ensureTokenSecret_found (st : Store) (owner : String) (tok : List Nat)
    (name : String) (sec : Secret)
    (hf : st.faults = []) (hfound : findVal st.secrets name = some sec) :
    ensureTokenSecret st owner tok name =
      ({ st with log := st.log ++ [StoreOp.get name] }, none) := by
  unfold ensureTokenSecret
  rw [getOp_nofault st name hf, hfound]

/-- When the token secret is absent and the store is quiescent, the ensure
reads, then creates the hex-encoded token secret and succeeds. -/
theorem ensureTokenSecret_absent (st : Store) (owner : String) (tok : List Nat)
    (name : String)
    (hf : st.faults = []) (habs : findVal st.secrets name = none) :
    ensureTokenSecret st owner tok name =
      ({ st with
          secrets := st.secrets ++
            [(name, ⟨[(SecretKeyToken, SVal.str (hexEncode tok))], some owner⟩)],
          log := st.log ++ [StoreOp.get name,
            StoreOp.create name ⟨[(SecretKeyToken, SVal.str (hexEncode tok))], some owner⟩] },
        none) := by
  unfold ensureTokenSecret
  rw [getOp_nofault st name hf, habs]
  show (match createTokenSecret { st with log := st.log ++ [StoreOp.get name] } name
      (hexEncode tok) owner with
    | (st2, CreateRes.alreadyExists) => (st2, none)
    | (st2, CreateRes.ok) => (st2, none)
    | (st2, CreateRes.err) => (st2, some (Err.storeFail "create" name))) = _
  rw [createTokenSecret,
    createOp_nofault_absent { st with log := st.log ++ [StoreOp.get name] } name
      ⟨[(SecretKeyToken, SVal.str (hexEncode tok))], some owner⟩ hf habs]
  simp [List.append_assoc]

/-- C7: ensuring a token credential is idempotent — when the named token
secret already exists (quiescent store), `ensureTokenSecret` returns success
having performed only the read (no create, update or delete), and running
the ensure a second time leaves the final secret state identical to running
it once. -/
theorem C7_ensure_token_idempotent (st : Store) (owner : String)
    (tok tok2 : List Nat) (name : String) (sec : Secret)
    (hf : st.faults = [])
    (hfound : findVal st.secrets name = some sec) :
    ensureTokenSecret st owner tok name =
      ({ st with log := st.log ++ [StoreOp.get name] }, none)
    ∧ ((ensureTokenSecret (ensureTokenSecret st owner tok name).1 owner tok2 name).1).secrets
        = ((ensureTokenSecret st owner tok name).1).secrets := by
  have h1 := ensureTokenSecret_found st owner tok name sec hf hfound
  have h2 := ensureTokenSecret_found { st with log := st.log ++ [StoreOp.get name] }
    owner tok2 name sec hf hfound
  exact ⟨h1, by rw [h1, h2]⟩

/-- Witness for C7 at a concrete one-secret store. -/
theorem C7_witness :
    (⟨[("tok", ⟨[("token", SVal.str "t")], some "o"⟩)], [], []⟩ : Store).faults = []
    ∧ findVal (⟨[("tok", ⟨[("token", SVal.str "t")], some "o"⟩)], [], []⟩ : Store).secrets "tok"
        = some ⟨[("token", SVal.str "t")], some "o"⟩
    ∧ (ensureTokenSecret ⟨[("tok", ⟨[("token", SVal.str "t")], some "o"⟩)], [], []⟩ "o" [1] "tok" =
        (⟨[("tok", ⟨[("token", SVal.str "t")], some "o"⟩)], [], [StoreOp.get "tok"]⟩, none)
      ∧ ((ensureTokenSecret
            (ensureTokenSecret ⟨[("tok", ⟨[("token", SVal.str "t")], some "o"⟩)], [], []⟩
              "o" [1] "tok").1 "o" [2] "tok").1).secrets
          = ((ensureTokenSecret ⟨[("tok", ⟨[("token", SVal.str "t")], some "o"⟩)], [], []⟩
              "o" [1] "tok").1).secrets) :=
  ⟨rfl, rfl,
    C7_ensure_token_idempotent
      ⟨[("tok", ⟨[("token", SVal.str "t")], some "o"⟩)], [], []⟩ "o" [1] [2] "tok"
      ⟨[("token", SVal.str "t")], some "o"⟩ rfl rfl⟩

/-- C9: with authentication, TLS, storage encryption and sync all disabled,
`EnsureSecrets` succeeds and performs no store operation at all — the final
store (secrets, faults and operation log alike) is the initial one. -/
theorem C9_ensure_secrets_noop_frame (st : Store) (spec : DeploymentSpec)
    (deploymentName owner : String) (ent : Entropy)
    (ha : spec.authenticated = false) (hs : spec.secure = false)
    (he : spec.encrypted = false) (hy : spec.syncEnabled = false) :
    EnsureSecrets st spec deploymentName owner ent = (st, none) := by
  simp [EnsureSecrets, seqE, ha, hs, he, hy]

/-- Witness for C9 at a concrete store and spec. -/
theorem C9_witness :
    EnsureSecrets ⟨[("x", ⟨[], none⟩)], [], []⟩
      ⟨false, false, false, false, false, "j", "m", "c", "e", "sj", "sm", "sc", "scc"⟩
      "d" "o" ⟨[], [], [], [], [], [], [], [], []⟩
      = (⟨[("x", ⟨[], none⟩)], [], []⟩, none) :=
  C9_ensure_secrets_noop_frame ⟨[("x", ⟨[], none⟩)], [], []⟩
    ⟨false, false, false, false, false, "j", "m", "c", "e", "sj", "sm", "sc", "scc"⟩
    "d" "o" ⟨[], [], [], [], [], [], [], [], []⟩ rfl rfl rfl rfl

/-- C6: a DownloadError backup status retried within the 60-second cool-down
(current time at most T+60) is re-emitted unchanged with no error; retried
strictly after T+60 it becomes Pending with the transition time updated to
the current time and an empty message. -/
theorem C6_download_error_cooldown (status : ArangoBackupStatus) (now : Nat)
    (hstate : status.state = ArangoBackupState.downloadError) :
    (now ≤ status.time + downloadDelay →
      stateDownloadErrorHandler now status = (status, none))
    ∧ (status.time + downloadDelay < now →
      stateDownloadErrorHandler now status =
        ({ state := ArangoBackupState.pending, time := now, message := "" }, none)) := by
  constructor
  · intro h
    simp [stateDownloadErrorHandler, wrapUpdateStatus, Nat.not_lt.mpr h]
  · intro h
    simp [stateDownloadErrorHandler, wrapUpdateStatus, h, updateStatusState, hstate]

/-- Witness for C6 at transition time 0, retried at 30 and at 61 seconds. -/
theorem C6_witness :
    ((30 : Nat) ≤ 0 + downloadDelay
      ∧ stateDownloadErrorHandler 30 ⟨ArangoBackupState.downloadError, 0, "m"⟩ =
          (⟨ArangoBackupState.downloadError, 0, "m"⟩, none))
    ∧ ((0 : Nat) + downloadDelay < 61
      ∧ stateDownloadErrorHandler 61 ⟨ArangoBackupState.downloadError, 0, "m"⟩ =
          (⟨ArangoBackupState.pending, 61, ""⟩, none)) :=
  ⟨⟨by decide,
    (C6_download_error_cooldown ⟨ArangoBackupState.downloadError, 0, "m"⟩ 30 rfl).1 (by decide)⟩,
   ⟨by decide,
    (C6_download_error_cooldown ⟨ArangoBackupState.downloadError, 0, "m"⟩ 61 rfl).2 (by decide)⟩⟩

/-- C5: authentication selection for client builds — with authentication
disabled no credential is attached unless the require marker makes it a
fatal error; with authentication enabled the skip marker yields no
credential, and otherwise the factory returns the bearer credential minted
from the primary auth token under the operator identity, propagating a
failed read. -/
theorem C5_client_authentication_selection :
    (∀ (ctx : ClientCtx) (obj : ApiObject) (st : Store),
      obj.spec.authenticated = false → ctx.requireAuthentication = false →
      createArangodClientAuthentication ctx (some obj) st = (st, Except.ok none))
    ∧ (∀ (ctx : ClientCtx) (obj : ApiObject) (st : Store),
      obj.spec.authenticated = false → ctx.requireAuthentication = true →
      createArangodClientAuthentication ctx (some obj) st =
        (st, Except.error Err.authRequired))
    ∧ (∀ (ctx : ClientCtx) (obj : ApiObject) (st : Store),
      obj.spec.authenticated = true → ctx.skipAuthentication = true →
      createArangodClientAuthentication ctx (some obj) st = (st, Except.ok none))
    ∧ (∀ (ctx : ClientCtx) (obj : ApiObject) (st st1 : Store) (s : SVal),
      obj.spec.authenticated = true → ctx.skipAuthentication = false →
      getTokenSecret st obj.spec.jwtSecretName = (st1, Except.ok s) →
      createArangodClientAuthentication ctx (some obj) st =
        (st1, Except.ok (some (Authentication.raw ⟨s, "kube-arangodb"⟩))))
    ∧ (∀ (ctx : ClientCtx) (obj : ApiObject) (st st1 : Store) (e : Err),
      obj.spec.authenticated = true → ctx.skipAuthentication = false →
      getTokenSecret st obj.spec.jwtSecretName = (st1, Except.error e) →
      createArangodClientAuthentication ctx (some obj) st = (st1, Except.error e)) := by
  refine ⟨?_, ?_, ?_, ?_, ?_⟩
  · intro ctx obj st ha hr
    simp [createArangodClientAuthentication, ha, hr]
  · intro ctx obj st ha hr
    simp [createArangodClientAuthentication, ha, hr]
  · intro ctx obj st ha hskip
    simp [createArangodClientAuthentication, ha, hskip]
  · intro ctx obj st st1 s ha hskip hget
    simp [createArangodClientAuthentication, ha, hskip, hget,
      createArangodJwtAuthorizationHeader]
  · intro ctx obj st st1 e ha hskip hget
    simp [createArangodClientAuthentication, ha, hskip, hget]

/-- Witness for C5 at concrete contexts, deployments and stores. -/
theorem C5_witness :
    (createArangodClientAuthentication ⟨false, false⟩
        (some ⟨"d", "n", ⟨false, false, false, false, false, "j", "m", "c", "e", "sj", "sm", "sc", "scc"⟩⟩)
        ⟨[], [], []⟩ = (⟨[], [], []⟩, Except.ok none))
    ∧ (createArangodClientAuthentication ⟨false, true⟩
        (some ⟨"d", "n", ⟨false, false, false, false, false, "j", "m", "c", "e", "sj", "sm", "sc", "scc"⟩⟩)
        ⟨[], [], []⟩ = (⟨[], [], []⟩, Except.error Err.authRequired))
    ∧ (createArangodClientAuthentication ⟨true, false⟩
        (some ⟨"d", "n", ⟨true, false, false, false, false, "j", "m", "c", "e", "sj", "sm", "sc", "scc"⟩⟩)
        ⟨[], [], []⟩ = (⟨[], [], []⟩, Except.ok none))
    ∧ (createArangodClientAuthentication ⟨false, false⟩
        (some ⟨"d", "n", ⟨true, false, false, false, false, "j", "m", "c", "e", "sj", "sm", "sc", "scc"⟩⟩)
        ⟨[("j", ⟨[("token", SVal.str "k")], some "o"⟩)], [], []⟩ =
        (⟨[("j", ⟨[("token", SVal.str "k")], some "o"⟩)], [], [StoreOp.get "j"]⟩,
          Except.ok (some (Authentication.raw ⟨SVal.str "k", "kube-arangodb"⟩))))
    ∧ (createArangodClientAuthentication ⟨false, false⟩
        (some ⟨"d", "n", ⟨true, false, false, false, false, "j", "m", "c", "e", "sj", "sm", "sc", "scc"⟩⟩)
        ⟨[], [], []⟩ = (⟨[], [], [StoreOp.get "j"]⟩, Except.error (Err.notFound "j"))) :=
  ⟨C5_client_authentication_selection.1 ⟨false, false⟩
      ⟨"d", "n", ⟨false, false, false, false, false, "j", "m", "c", "e", "sj", "sm", "sc", "scc"⟩⟩
      ⟨[], [], []⟩ rfl rfl,
   C5_client_authentication_selection.2.1 ⟨false, true⟩
      ⟨"d", "n", ⟨false, false, false, false, false, "j", "m", "c", "e", "sj", "sm", "sc", "scc"⟩⟩
      ⟨[], [], []⟩ rfl rfl,
   C5_client_authentication_selection.2.2.1 ⟨true, false⟩
      ⟨"d", "n", ⟨true, false, false, false, false, "j", "m", "c", "e", "sj", "sm", "sc", "scc"⟩⟩
      ⟨[], [], []⟩ rfl rfl,
   C5_client_authentication_selection.2.2.2.1 ⟨false, false⟩
      ⟨"d", "n", ⟨true, false, false, false, false, "j", "m", "c", "e", "sj", "sm", "sc", "scc"⟩⟩
      ⟨[("j", ⟨[("token", SVal.str "k")], some "o"⟩)], [], []⟩
      ⟨[("j", ⟨[("token", SVal.str "k")], some "o"⟩)], [], [StoreOp.get "j"]⟩
      (SVal.str "k") rfl rfl rfl,
   C5_client_authentication_selection.2.2.2.2 ⟨false, false⟩
      ⟨"d", "n", ⟨true, false, false, false, false, "j", "m", "c", "e", "sj", "sm", "sc", "scc"⟩⟩
      ⟨[], [], []⟩ ⟨[], [], [StoreOp.get "j"]⟩ (Err.notFound "j") rfl rfl rfl⟩

/-- C10: the bare-DNS bootstrap client is built with no API object, so
authentication counts as disabled — without the require marker the build
succeeds with no credential attached, and with the require marker it always
fails, whatever the secret store holds. -/
theorem C10_image_id_client_no_auth (ctx : ClientCtx)
    (deploymentName ns role id : String) (st : Store) :
    (ctx.requireAuthentication = false →
      CreateArangodImageIDClient ctx deploymentName ns role id st =
        (st, Except.ok
          { conn := createArangodHTTPConfigForDNSNames none
              [CreatePodDNSName deploymentName role id ns] false
            auth := none }))
    ∧ (ctx.requireAuthentication = true →
      CreateArangodImageIDClient ctx deploymentName ns role id st =
        (st, Except.error Err.authRequired)) := by
  constructor <;> intro h <;>
    simp [CreateArangodImageIDClient, createArangodClientForDNSName,
      createArangodClientAuthentication, h]

/-- Witness for C10 on both marker settings over a non-empty store. -/
theorem C10_witness :
    (CreateArangodImageIDClient ⟨false, false⟩ "d" "n" "r" "i"
        ⟨[("j", ⟨[("token", SVal.str "k")], some "o"⟩)], [], []⟩ =
      (⟨[("j", ⟨[("token", SVal.str "k")], some "o"⟩)], [], []⟩,
        Except.ok
          { conn := createArangodHTTPConfigForDNSNames none
              [CreatePodDNSName "d" "r" "i" "n"] false
            auth := none }))
    ∧ (CreateArangodImageIDClient ⟨false, true⟩ "d" "n" "r" "i"
        ⟨[("j", ⟨[("token", SVal.str "k")], some "o"⟩)], [], []⟩ =
      (⟨[("j", ⟨[("token", SVal.str "k")], some "o"⟩)], [], []⟩,
        Except.error Err.authRequired)) :=
  ⟨(C10_image_id_client_no_auth ⟨false, false⟩ "d" "n" "r" "i"
      ⟨[("j", ⟨[("token", SVal.str "k")], some "o"⟩)], [], []⟩).1 rfl,
   (C10_image_id_client_no_auth ⟨false, true⟩ "d" "n" "r" "i"
      ⟨[("j", ⟨[("token", SVal.str "k")], some "o"⟩)], [], []⟩).2 rfl⟩

/-- C8 counterexample: the claim's asserted timeout table — dial and idle
timeouts both 30s on the normal pools and both 100ms on the short-timeout
pools — is false of the shared pools: in the code every pool dials with a
30s timeout and the normal pools idle out at 90s. -/
theorem C8_counterexample :
    ¬ (sharedHTTPTransport.dialTimeoutMs = 30000
      ∧ sharedHTTPTransport.idleConnTimeoutMs = 30000
      ∧ sharedHTTPSTransport.dialTimeoutMs = 30000
      ∧ sharedHTTPSTransport.idleConnTimeoutMs = 30000
      ∧ sharedHTTPTransportShortTimeout.dialTimeoutMs = 100
      ∧ sharedHTTPTransportShortTimeout.idleConnTimeoutMs = 100
      ∧ sharedHTTPSTransportShortTimeout.dialTimeoutMs = 100
      ∧ sharedHTTPSTransportShortTimeout.idleConnTimeoutMs = 100) := by
  decide

/-- C8 (amended): every connection build selects its transport from the four
process-wide pools by the two booleans (TLS-secure vs plaintext, short vs
normal timeout); the dial timeout is 30 seconds on all four pools, while the
idle timeouts — keep-alive and idle-connection alike — are 90 seconds on the
normal pools and 100 milliseconds on the short-timeout pools. -/
theorem C8_transport_pools_amended :
    (∀ (apiObject : Option ApiObject) (dnsNames : List String) (shortTimeout : Bool),
      (createArangodHTTPConfigForDNSNames apiObject dnsNames shortTimeout).transport =
        (if (match apiObject with | some o => o.spec.secure | none => false) then
          (if shortTimeout then sharedHTTPSTransportShortTimeout else sharedHTTPSTransport)
        else
          (if shortTimeout then sharedHTTPTransportShortTimeout else sharedHTTPTransport)))
    ∧ sharedHTTPTransport.dialTimeoutMs = 30000
    ∧ sharedHTTPSTransport.dialTimeoutMs = 30000
    ∧ sharedHTTPTransportShortTimeout.dialTimeoutMs = 30000
    ∧ sharedHTTPSTransportShortTimeout.dialTimeoutMs = 30000
    ∧ sharedHTTPTransport.idleConnTimeoutMs = 90000
    ∧ sharedHTTPSTransport.idleConnTimeoutMs = 90000
    ∧ sharedHTTPTransportShortTimeout.idleConnTimeoutMs = 100
    ∧ sharedHTTPSTransportShortTimeout.idleConnTimeoutMs = 100
    ∧ sharedHTTPTransport.keepAliveMs = 90000
    ∧ sharedHTTPSTransport.keepAliveMs = 90000
    ∧ sharedHTTPTransportShortTimeout.keepAliveMs = 100
    ∧ sharedHTTPSTransportShortTimeout.keepAliveMs = 100 := by
  refine ⟨?_, rfl, rfl, rfl, rfl, rfl, rfl, rfl, rfl, rfl, rfl, rfl, rfl⟩
  intro apiObject dnsNames shortTimeout
  cases apiObject <;> simp [createArangodHTTPConfigForDNSNames]

/-- C3: when the source keyfile secret is missing, has empty data, or lacks
the encryption-key field, the keyfolder ensure fails with an error that is
not a store failure (a wrapped not-found, resp. the validation error), and
creates nothing: the secrets are untouched and only the read is logged. -/
theorem C3_keyfolder_validation_failures (st : Store) (owner kfName outName : String)
    (hf : st.faults = []) :
    (findVal st.secrets kfName = none →
      ensureEncryptionKeyfolderSecret st owner kfName outName =
        ({ st with log := st.log ++ [StoreOp.get kfName] },
          some (Err.wrap "Unable to find original secret" (Err.notFound kfName)))
      ∧ (Err.wrap "Unable to find original secret" (Err.notFound kfName)).isStoreFailure
          = false)
    ∧ (∀ sec : Secret, findVal st.secrets kfName = some sec → sec.data = [] →
      ensureEncryptionKeyfolderSecret st owner kfName outName =
        ({ st with log := st.log ++ [StoreOp.get kfName] },
          some (Err.validation "Missing key in secret"))
      ∧ (Err.validation "Missing key in secret").isStoreFailure = false)
    ∧ (∀ sec : Secret, findVal st.secrets kfName = some sec →
        findVal sec.data SecretEncryptionKey = none →
      ensureEncryptionKeyfolderSecret st owner kfName outName =
        ({ st with log := st.log ++ [StoreOp.get kfName] },
          some (Err.validation "Missing key in secret"))) := by
  refine ⟨?_, ?_, ?_⟩
  · intro habs
    refine ⟨?_, rfl⟩
    unfold ensureEncryptionKeyfolderSecret
    rw [getOp_nofault st kfName hf, habs]
  · intro sec hfound hempty
    refine ⟨?_, rfl⟩
    unfold ensureEncryptionKeyfolderSecret
    rw [getOp_nofault st kfName hf, hfound]
    simp [hempty]
  · intro sec hfound hnokey
    unfold ensureEncryptionKeyfolderSecret
    rw [getOp_nofault st kfName hf, hfound]
    by_cases hd : sec.data.length = 0
    · simp [hd]
    · simp [hd, hnokey]

/-- Witness for C3 on three concrete stores: keyfile missing, keyfile with
empty data, keyfile lacking the encryption-key field. -/
theorem C3_witness :
    (ensureEncryptionKeyfolderSecret ⟨[], [], []⟩ "o" "kf" "out" =
      (⟨[], [], [StoreOp.get "kf"]⟩,
        some (Err.wrap "Unable to find original secret" (Err.notFound "kf")))
      ∧ (Err.wrap "Unable to find original secret" (Err.notFound "kf")).isStoreFailure = false)
    ∧ (ensureEncryptionKeyfolderSecret ⟨[("kf", ⟨[], none⟩)], [], []⟩ "o" "kf" "out" =
      (⟨[("kf", ⟨[], none⟩)], [], [StoreOp.get "kf"]⟩,
        some (Err.validation "Missing key in secret"))
      ∧ (Err.validation "Missing key in secret").isStoreFailure = false)
    ∧ (ensureEncryptionKeyfolderSecret
        ⟨[("kf", ⟨[("other", SVal.str "x")], none⟩)], [], []⟩ "o" "kf" "out" =
      (⟨[("kf", ⟨[("other", SVal.str "x")], none⟩)], [], [StoreOp.get "kf"]⟩,
        some (Err.validation "Missing key in secret"))) :=
  ⟨(C3_keyfolder_validation_failures ⟨[], [], []⟩ "o" "kf" "out" rfl).1 rfl,
   (C3_keyfolder_validation_failures ⟨[("kf", ⟨[], none⟩)], [], []⟩ "o" "kf" "out" rfl).2.1
      ⟨[], none⟩ rfl rfl,
   (C3_keyfolder_validation_failures ⟨[("kf", ⟨[("other", SVal.str "x")], none⟩)], [], []⟩
      "o" "kf" "out" rfl).2.2 ⟨[("other", SVal.str "x")], none⟩ rfl rfl⟩

/-- Appending a fresh binding makes it visible to lookup. -/
theorem findVal_append_self {α : Type} (l : List (String × α)) (name : String) (v : α)
    (h : findVal l name = none) : findVal (l ++ [(name, v)]) name = some v := by
  induction l with
  | nil => simp [findVal]
  | cons kv rest ih =>
      obtain ⟨k, w⟩ := kv
      rw [List.cons_append]
      unfold findVal at h ⊢
      by_cases hk : k = name
      · rw [if_pos hk] at h
        exact absurd h (by simp)
      · rw [if_neg hk] at h ⊢
        exact ih h

/-- C2: on each credential-create path — token secret, exporter token,
server TLS CA, client-auth CA — an ensure that observed the secret as
absent treats a concurrent-create (already exists) outcome of its own
create as success, while any other create failure is returned as an
error. -/
theorem C2_create_already_exists_tolerated :
    (∀ (st : Store) (owner : String) (tok : List Nat) (name : String) (d : Secret),
      st.faults = [Fault.ok, Fault.raceCreate name d] →
      findVal st.secrets name = none →
      (ensureTokenSecret st owner tok name).2 = none)
    ∧ (∀ (st : Store) (owner : String) (tok : List Nat) (name : String),
      st.faults = [Fault.ok, Fault.fail] →
      findVal st.secrets name = none →
      (ensureTokenSecret st owner tok name).2 = some (Err.storeFail "create" name))
    ∧ (∀ (st : Store) (owner tokenName keyName : String) (keySec : Secret)
        (key : SVal) (d : Secret),
      st.faults = [Fault.ok, Fault.ok, Fault.raceCreate tokenName d] →
      findVal st.secrets tokenName = none →
      findVal st.secrets keyName = some keySec →
      findVal keySec.data SecretKeyToken = some key →
      (ensureExporterTokenSecret st owner tokenName keyName).2 = none)
    ∧ (∀ (st : Store) (owner tokenName keyName : String) (keySec : Secret) (key : SVal),
      st.faults = [Fault.ok, Fault.ok, Fault.fail] →
      findVal st.secrets tokenName = none →
      findVal st.secrets keyName = some keySec →
      findVal keySec.data SecretKeyToken = some key →
      (ensureExporterTokenSecret st owner tokenName keyName).2 =
        some (Err.storeFail "create" tokenName))
    ∧ (∀ (st : Store) (owner : String) (cc ck : List Nat) (name : String) (d : Secret),
      st.faults = [Fault.ok, Fault.raceCreate name d] →
      findVal st.secrets name = none →
      (ensureTLSCACertificateSecret st owner cc ck name).2 = none)
    ∧ (∀ (st : Store) (owner : String) (cc ck : List Nat) (name : String),
      st.faults = [Fault.ok, Fault.fail] →
      findVal st.secrets name = none →
      (ensureTLSCACertificateSecret st owner cc ck name).2 =
        some (Err.storeFail "create" name))
    ∧ (∀ (st : Store) (owner : String) (cc ck : List Nat) (name : String) (d : Secret),
      st.faults = [Fault.ok, Fault.raceCreate name d] →
      findVal st.secrets name = none →
      (ensureClientAuthCACertificateSecret st owner cc ck name).2 = none)
    ∧ (∀ (st : Store) (owner : String) (cc ck : List Nat) (name : String),
      st.faults = [Fault.ok, Fault.fail] →
      findVal st.secrets name = none →
      (ensureClientAuthCACertificateSecret st owner cc ck name).2 =
        some (Err.storeFail "create" name)) := by
  refine ⟨?_, ?_, ?_, ?_, ?_, ?_, ?_, ?_⟩
  · intro st owner tok name d hfts habs
    simp [ensureTokenSecret, createTokenSecret, Store.getOp, Store.createOp,
      Store.popFault, raceApply, hfts, habs, findVal_append_self st.secrets name d habs]
  · intro st owner tok name hfts habs
    simp [ensureTokenSecret, createTokenSecret, Store.getOp, Store.createOp,
      Store.popFault, raceApply, hfts, habs]
  · intro st owner tokenName keyName keySec key d hfts habs hkey hkeyField
    simp [ensureExporterTokenSecret, ensureExporterTokenSecretCreateRequired,
      createJWTFromSecret, getTokenSecret, Store.getOp, Store.createOp,
      Store.popFault, raceApply, hfts, habs, hkey, hkeyField,
      findVal_append_self st.secrets tokenName d habs]
  · intro st owner tokenName keyName keySec key hfts habs hkey hkeyField
    simp [ensureExporterTokenSecret, ensureExporterTokenSecretCreateRequired,
      createJWTFromSecret, getTokenSecret, Store.getOp, Store.createOp,
      Store.popFault, raceApply, hfts, habs, hkey, hkeyField]
  · intro st owner cc ck name d hfts habs
    simp [ensureTLSCACertificateSecret, createTLSCACertificate, Store.getOp,
      Store.createOp, Store.popFault, raceApply, hfts, habs,
      findVal_append_self st.secrets name d habs]
  · intro st owner cc ck name hfts habs
    simp [ensureTLSCACertificateSecret, createTLSCACertificate, Store.getOp,
      Store.createOp, Store.popFault, raceApply, hfts, habs]
  · intro st owner cc ck name d hfts habs
    simp [ensureClientAuthCACertificateSecret, createClientAuthCACertificate,
      Store.getOp, Store.createOp, Store.popFault, raceApply, hfts, habs,
      findVal_append_self st.secrets name d habs]
  · intro st owner cc ck name hfts habs
    simp [ensureClientAuthCACertificateSecret, createClientAuthCACertificate,
      Store.getOp, Store.createOp, Store.popFault, raceApply, hfts, habs]

/-- Witness for C2: each of the eight cases run on a concrete store with the
corresponding injected race or failure. -/
theorem C2_witness :
    (ensureTokenSecret ⟨[], [Fault.ok, Fault.raceCreate "s" ⟨[], none⟩], []⟩
      "o" [1] "s").2 = none
    ∧ (ensureTokenSecret ⟨[], [Fault.ok, Fault.fail], []⟩ "o" [1] "s").2 =
        some (Err.storeFail "create" "s")
    ∧ (ensureExporterTokenSecret
        ⟨[("j", ⟨[("token", SVal.str "k")], some "o"⟩)],
          [Fault.ok, Fault.ok, Fault.raceCreate "m" ⟨[], none⟩], []⟩
        "o" "m" "j").2 = none
    ∧ (ensureExporterTokenSecret
        ⟨[("j", ⟨[("token", SVal.str "k")], some "o"⟩)],
          [Fault.ok, Fault.ok, Fault.fail], []⟩
        "o" "m" "j").2 = some (Err.storeFail "create" "m")
    ∧ (ensureTLSCACertificateSecret ⟨[], [Fault.ok, Fault.raceCreate "c" ⟨[], none⟩], []⟩
        "o" [1] [2] "c").2 = none
    ∧ (ensureTLSCACertificateSecret ⟨[], [Fault.ok, Fault.fail], []⟩
        "o" [1] [2] "c").2 = some (Err.storeFail "create" "c")
    ∧ (ensureClientAuthCACertificateSecret
        ⟨[], [Fault.ok, Fault.raceCreate "cc" ⟨[], none⟩], []⟩
        "o" [1] [2] "cc").2 = none
    ∧ (ensureClientAuthCACertificateSecret ⟨[], [Fault.ok, Fault.fail], []⟩
        "o" [1] [2] "cc").2 = some (Err.storeFail "create" "cc") :=
  ⟨C2_create_already_exists_tolerated.1
      ⟨[], [Fault.ok, Fault.raceCreate "s" ⟨[], none⟩], []⟩ "o" [1] "s" ⟨[], none⟩ rfl rfl,
   C2_create_already_exists_tolerated.2.1
      ⟨[], [Fault.ok, Fault.fail], []⟩ "o" [1] "s" rfl rfl,
   C2_create_already_exists_tolerated.2.2.1
      ⟨[("j", ⟨[("token", SVal.str "k")], some "o"⟩)],
        [Fault.ok, Fault.ok, Fault.raceCreate "m" ⟨[], none⟩], []⟩
      "o" "m" "j" ⟨[("token", SVal.str "k")], some "o"⟩ (SVal.str "k") ⟨[], none⟩
      rfl rfl rfl rfl,
   C2_create_already_exists_tolerated.2.2.2.1
      ⟨[("j", ⟨[("token", SVal.str "k")], some "o"⟩)],
        [Fault.ok, Fault.ok, Fault.fail], []⟩
      "o" "m" "j" ⟨[("token", SVal.str "k")], some "o"⟩ (SVal.str "k") rfl rfl rfl rfl,
   C2_create_already_exists_tolerated.2.2.2.2.1
      ⟨[], [Fault.ok, Fault.raceCreate "c" ⟨[], none⟩], []⟩ "o" [1] [2] "c" ⟨[], none⟩
      rfl rfl,
   C2_create_already_exists_tolerated.2.2.2.2.2.1
      ⟨[], [Fault.ok, Fault.fail], []⟩ "o" [1] [2] "c" rfl rfl,
   C2_create_already_exists_tolerated.2.2.2.2.2.2.1
      ⟨[], [Fault.ok, Fault.raceCreate "cc" ⟨[], none⟩], []⟩ "o" [1] [2] "cc" ⟨[], none⟩
      rfl rfl,
   C2_create_already_exists_tolerated.2.2.2.2.2.2.2
      ⟨[], [Fault.ok, Fault.fail], []⟩ "o" [1] [2] "cc" rfl rfl⟩

/-- C4: from an empty store, a spec with authentication enabled and TLS,
metrics, encryption and sync disabled makes `EnsureSecrets` produce exactly
the primary auth token secret; the same spec with metrics enabled produces
exactly that secret plus the claims-bound exporter token, and nothing
else. -/
theorem C4_ensure_secrets_auth_and_metrics (spec : DeploymentSpec)
    (deploymentName owner : String) (ent : Entropy)
    (ha : spec.authenticated = true) (hs : spec.secure = false)
    (he : spec.encrypted = false) (hy : spec.syncEnabled = false)
    (hne : spec.jwtSecretName ≠ spec.metricsJWTTokenSecretName) :
    (spec.metricsEnabled = false →
      EnsureSecrets ⟨[], [], []⟩ spec deploymentName owner ent =
        (⟨[(spec.jwtSecretName,
              ⟨[(SecretKeyToken, SVal.str (hexEncode ent.authTokenData))], some owner⟩)],
          [],
          [StoreOp.get spec.jwtSecretName,
           StoreOp.create spec.jwtSecretName
             ⟨[(SecretKeyToken, SVal.str (hexEncode ent.authTokenData))], some owner⟩]⟩,
          none))
    ∧ (spec.metricsEnabled = true →
      EnsureSecrets ⟨[], [], []⟩ spec deploymentName owner ent =
        (⟨[(spec.jwtSecretName,
              ⟨[(SecretKeyToken, SVal.str (hexEncode ent.authTokenData))], some owner⟩),
           (spec.metricsJWTTokenSecretName,
              ⟨[(SecretKeyToken,
                  SVal.jwtTok (SVal.str (hexEncode ent.authTokenData)) exporterTokenClaims)],
                some owner⟩)],
          [],
          [StoreOp.get spec.jwtSecretName,
           StoreOp.create spec.jwtSecretName
             ⟨[(SecretKeyToken, SVal.str (hexEncode ent.authTokenData))], some owner⟩,
           StoreOp.get spec.metricsJWTTokenSecretName,
           StoreOp.get spec.jwtSecretName,
           StoreOp.create spec.metricsJWTTokenSecretName
             ⟨[(SecretKeyToken,
                 SVal.jwtTok (SVal.str (hexEncode ent.authTokenData)) exporterTokenClaims)],
               some owner⟩]⟩,
          none)) := by
  constructor
  · intro hm
    simp [EnsureSecrets, seqE, ha, hs, he, hy, hm, ensureTokenSecret, createTokenSecret,
      Store.getOp, Store.createOp, Store.popFault, raceApply, findVal]
  · intro hm
    simp [EnsureSecrets, seqE, ha, hs, he, hy, hm, ensureTokenSecret, createTokenSecret,
      ensureExporterTokenSecret, ensureExporterTokenSecretCreateRequired,
      createJWTFromSecret, getTokenSecret, Store.getOp, Store.createOp, Store.popFault,
      raceApply, findVal, hne, Ne.symm hne]

/-- Witness for C4 with concrete names, owner and token bytes, in both the
metrics-off and metrics-on configurations. -/
theorem C4_witness :
    (EnsureSecrets ⟨[], [], []⟩
        ⟨true, false, false, false, false, "j", "m", "c", "e", "sj", "sm", "sc", "scc"⟩
        "d" "o" ⟨[255], [], [], [], [], [], [], [], []⟩ =
      (⟨[("j", ⟨[(SecretKeyToken, SVal.str (hexEncode [255]))], some "o"⟩)],
        [],
        [StoreOp.get "j",
         StoreOp.create "j" ⟨[(SecretKeyToken, SVal.str (hexEncode [255]))], some "o"⟩]⟩,
        none))
    ∧ (EnsureSecrets ⟨[], [], []⟩
        ⟨true, true, false, false, false, "j", "m", "c", "e", "sj", "sm", "sc", "scc"⟩
        "d" "o" ⟨[255], [], [], [], [], [], [], [], []⟩ =
      (⟨[("j", ⟨[(SecretKeyToken, SVal.str (hexEncode [255]))], some "o"⟩),
         ("m", ⟨[(SecretKeyToken,
             SVal.jwtTok (SVal.str (hexEncode [255])) exporterTokenClaims)], some "o"⟩)],
        [],
        [StoreOp.get "j",
         StoreOp.create "j" ⟨[(SecretKeyToken, SVal.str (hexEncode [255]))], some "o"⟩,
         StoreOp.get "m",
         StoreOp.get "j",
         StoreOp.create "m" ⟨[(SecretKeyToken,
             SVal.jwtTok (SVal.str (hexEncode [255])) exporterTokenClaims)], some "o"⟩]⟩,
        none)) :=
  ⟨(C4_ensure_secrets_auth_and_metrics
      ⟨true, false, false, false, false, "j", "m", "c", "e", "sj", "sm", "sc", "scc"⟩
      "d" "o" ⟨[255], [], [], [], [], [], [], [], []⟩
      rfl rfl rfl rfl (by decide)).1 rfl,
   (C4_ensure_secrets_auth_and_metrics
      ⟨true, true, false, false, false, "j", "m", "c", "e", "sj", "sm", "sc", "scc"⟩
      "d" "o" ⟨[255], [], [], [], [], [], [], [], []⟩
      rfl rfl rfl rfl (by decide)).2 rfl⟩

/-- C1: code-bug evidence at a concrete failing input — the stored exporter
token is a JWT signed with the current primary key whose decoded claims are
structurally identical to the desired set (first conjunct), yet the
validator reports "recreation required" because the reflect types compared
by `semanticDeepEqual` differ for every decoded token (second conjunct),
and the ensure pass therefore deletes and recreates the secret instead of
taking no action (third conjunct, with the delete and create in the
operation log). -/
theorem C1_exporter_recreates_despite_matching_claims :
    jgParse (SVal.jwtTok (SVal.str "k") exporterTokenClaims) (SVal.str "k") =
      some exporterTokenClaims
    ∧ (ensureExporterTokenSecretCreateRequired
        ⟨[("m", ⟨[("token", SVal.jwtTok (SVal.str "k") exporterTokenClaims)], some "o"⟩),
          ("j", ⟨[("token", SVal.str "k")], some "o"⟩)], [], []⟩ "m" "j").2 =
        (true, true, none)
    ∧ ensureExporterTokenSecret
        ⟨[("m", ⟨[("token", SVal.jwtTok (SVal.str "k") exporterTokenClaims)], some "o"⟩),
          ("j", ⟨[("token", SVal.str "k")], some "o"⟩)], [], []⟩ "o" "m" "j" =
        (⟨[("j", ⟨[("token", SVal.str "k")], some "o"⟩),
           ("m", ⟨[("token", SVal.jwtTok (SVal.str "k") exporterTokenClaims)], some "o"⟩)],
          [],
          [StoreOp.get "m", StoreOp.get "j", StoreOp.delete "m", StoreOp.get "j",
           StoreOp.create "m"
             ⟨[("token", SVal.jwtTok (SVal.str "k") exporterTokenClaims)], some "o"⟩]⟩,
          none) := by
  refine ⟨rfl, by decide, by decide⟩


